import Mathlib

/-!
Verification of the flights-mcp repository (Duffel API client and flight
search tools) against its natural-language specification.

The Python source is shallowly embedded:
`src/flights/duffel_api.py` (cache key, TTL cache, retry loop, request
payload construction) and `src/flights/tools.py` (slice building, the
`search_flights` handler and the response formatter).
-/

namespace Flights

/-- JSON values, as manipulated by the Python code.  Objects are ordered
association lists, mirroring Python dicts (insertion ordered, distinct
keys); numbers are integers, the only numeric values the code produces. -/
inductive Json where
  | null
  | bool (b : Bool)
  | num (n : Int)
  | str (s : String)
  | arr (xs : List Json)
  | obj (fields : List (String × Json))

/-- Sort an object's fields by key, as `json.dumps(..., sort_keys=True)`
does at each object level (`duffel_api.py:53`). -/
def sortFields (l : List (String × Json)) : List (String × Json) :=
  List.insertionSort (fun a b => a.1 ≤ b.1) l

mutual

/-- Recursively sort every object's fields by key: the canonicalization
that `json.dumps(key_data, sort_keys=True)` applies (`duffel_api.py:53`). -/
def canon : Json → Json
  | .null => .null
  | .bool b => .bool b
  | .num n => .num n
  | .str s => .str s
  | .arr xs => .arr (canonList xs)
  | .obj fs => .obj (sortFields (canonFields fs))

def canonFields : List (String × Json) → List (String × Json)
  | [] => []
  | (k, v) :: rest => (k, canon v) :: canonFields rest

def canonList : List Json → List Json
  | [] => []
  | x :: rest => canon x :: canonList rest

end

mutual

/-- Serialize a JSON value the way `json.dumps` does with default
separators (fields are emitted in the value's own order; string escaping
is not modelled, as the code only serializes IATA codes, dates, times and
cabin-class names, which contain no characters needing escapes). -/
def dumpsRaw : Json → String
  | .null => "null"
  | .bool true => "true"
  | .bool false => "false"
  | .num n => toString n
  | .str s => "\"" ++ s ++ "\""
  | .arr xs => "[" ++ dumpsList xs ++ "]"
  | .obj fs => "\x7b" ++ dumpsFields fs ++ "\x7d"

def dumpsList : List Json → String
  | [] => ""
  | [x] => dumpsRaw x
  | x :: y :: rest => dumpsRaw x ++ ", " ++ dumpsList (y :: rest)

def dumpsFields : List (String × Json) → String
  | [] => ""
  | [(k, v)] => "\"" ++ k ++ "\": " ++ dumpsRaw v
  | (k, v) :: p :: rest => "\"" ++ k ++ "\": " ++ dumpsRaw v ++ ", " ++ dumpsFields (p :: rest)

end

/-- `json.dumps(x, sort_keys=True)` (`duffel_api.py:53`). -/
def pyDumpsSorted (x : Json) : String :=
  dumpsRaw (canon x)

/-- `Client._cache_key` (`duffel_api.py:46-53`): the key data dict built
from slices, cabin class and adult count, serialized with sorted keys.
The source then takes the MD5 hex digest of this string; since MD5 is a
function, equal strings yield equal digests, and every theorem below uses
the key through equalities only, so the digest step is omitted. -/
def cache_key (slices : List Json) (cabin_class : String) (adult_count : Nat) : String :=
  pyDumpsSorted (.obj [("slices", .arr slices),
                       ("cabin_class", .str cabin_class),
                       ("adult_count", .num adult_count)])

/-! ## Upstream response model

`_create_offer_request` (`duffel_api.py:140-203`) extracts `request_id`
and `offers` from the response body of a successful POST.  The offers are
consumed by the formatter in `tools.py`, so they are modelled with the
fields the formatter reads. -/

/-- A carrier dict, read via `.get('marketing_carrier', {}).get('name')`
(`tools.py:194`). -/
structure Carrier where
  name : Option String
deriving DecidableEq, Repr

/-- A place dict reached through `.get(..., {}).get('iata_code')`
(`tools.py:202`): the inner key is optional. -/
structure PlaceOpt where
  iata_code : Option String
deriving DecidableEq, Repr

/-- A place dict accessed with mandatory subscripts
`slice['origin']['iata_code']` (`tools.py:189-190`). -/
structure Place where
  iata_code : String
deriving DecidableEq, Repr

/-- One flight segment as read by the formatter (`tools.py:191-205`):
every field is accessed with `.get`, hence optional. -/
structure Segment where
  departing_at : Option String
  arriving_at : Option String
  duration : Option String
  destination : Option PlaceOpt
  marketing_carrier : Option Carrier
deriving DecidableEq, Repr

/-- One offer slice as read by the formatter (`tools.py:185-196`):
`origin`/`destination` are subscripted (mandatory), `duration` and
`segments` use `.get` (with `[]` default for segments). -/
structure OfferSlice where
  origin : Place
  destination : Place
  duration : Option String
  segments : List Segment
deriving DecidableEq, Repr

/-- One raw offer as read by the formatter (`tools.py:174-185`). -/
structure Offer where
  id : Option String
  total_amount : Option String
  total_currency : Option String
  slices : List OfferSlice
deriving DecidableEq, Repr

/-- The dict `_create_offer_request` returns on success
(`duffel_api.py:189-192`): `request_id` from `data["data"]["id"]` and the
offers list (`data["data"].get("offers", [])`). -/
structure OfferRequestResult where
  request_id : String
  offers : List Offer
deriving DecidableEq, Repr

/-! ## Error and transport model -/

/-- Non-timeout failures of one POST attempt: a non-2xx status raised by
`response.raise_for_status()` (`duffel_api.py:180`), a body from which
`data["data"]["id"]` cannot be extracted (`duffel_api.py:181-183`), or a
transport-level connection failure.  All take the generic `except` branch
at `duffel_api.py:200-203`. -/
inductive OtherError where
  | httpStatus (code : Nat)
  | malformedBody
  | connectError
deriving DecidableEq, Repr

/-- An exception escaping `_create_offer_request`: either
`httpx.ReadTimeout` re-raised on the last attempt (`duffel_api.py:194-196`)
or any other exception re-raised immediately (`duffel_api.py:200-203`). -/
inductive DuffelError where
  | readTimeout
  | other (e : OtherError)
deriving DecidableEq, Repr

/-- The outcome of one HTTP POST attempt inside the retry loop, as decided
by the transport/upstream (an oracle indexed by attempt number): success
(with the already-extracted result), `httpx.ReadTimeout`, or any other
exception. -/
inductive Outcome where
  | success (r : OfferRequestResult)
  | readTimeout
  | failure (e : OtherError)
deriving DecidableEq, Repr

/-! ## Retry loop (`Client._create_offer_request`, `duffel_api.py:140-203`) -/

/-- Result of running the retry loop: the value returned or exception
raised (`.ok none` models Python's implicit `None` return should the
`for` loop ever be exhausted), the number of POST attempts actually made,
and the backoff sleeps performed (`await asyncio.sleep(retry_delay)`,
`duffel_api.py:198`), in seconds, in order. -/
structure AttemptOut where
  result : Except DuffelError (Option OfferRequestResult)
  attempts : Nat
  sleeps : List Nat
deriving Repr

/-- The body of `for attempt in range(max_retries)` (`duffel_api.py:151-203`):
on success return the extracted result; on `httpx.ReadTimeout` re-raise if
this was the last attempt, otherwise sleep `retry_delay` and continue; on
any other exception log and re-raise at once.  `fuel` is the number of
loop iterations remaining. -/
def attemptGo (oracle : Nat → Outcome) (maxRetries retryDelay : Nat) :
    Nat → Nat → List Nat → AttemptOut
  | attempt, 0, sleeps => ⟨.ok none, attempt, sleeps.reverse⟩
  | attempt, fuel + 1, sleeps =>
    match oracle attempt with
    | .success r => ⟨.ok (some r), attempt + 1, sleeps.reverse⟩
    | .readTimeout =>
      if attempt = maxRetries - 1 then
        ⟨.error .readTimeout, attempt + 1, sleeps.reverse⟩
      else
        attemptGo oracle maxRetries retryDelay (attempt + 1) fuel (retryDelay :: sleeps)
    | .failure e => ⟨.error (.other e), attempt + 1, sleeps.reverse⟩

/-- `Client._create_offer_request` (`duffel_api.py:140-203`) with
`max_retries = 2` and `retry_delay = 1` (`duffel_api.py:148-149`). -/
def createOfferRequestInner (oracle : Nat → Outcome) : AttemptOut :=
  attemptGo oracle 2 1 0 2 []

/-! ## Request payload construction -/

/-- JSON encoding of an optional int: Python `None` serializes as `null`. -/
def jsonOfOptInt : Option Int → Json
  | none => .null
  | some n => .num n

/-- `[{"type": "adult"} for _ in range(adult_count)]`
(`duffel_api.py:97,154`). -/
def passengersJson (adult_count : Nat) : Json :=
  .arr (List.replicate adult_count (.obj [("type", .str "adult")]))

/-- `request_data` in `_create_offer_request` (`duffel_api.py:157-164`):
the body actually POSTed (`json=request_data`, `duffel_api.py:178`).
`max_connections` is included unconditionally, Python `None` becoming
JSON `null`. -/
def buildRequestData (slices : List Json) (cabin_class : String)
    (adult_count : Nat) (max_connections : Option Int) : Json :=
  .obj [("data", .obj [
    ("slices", .arr slices),
    ("passengers", passengersJson adult_count),
    ("cabin_class", .str cabin_class),
    ("max_connections", jsonOfOptInt max_connections)])]

/-- The local `data` dict built in the public `create_offer_request`
(`duffel_api.py:93-103`): `max_connections` is added only if not `None`.
This dict is constructed and then never used — `_create_offer_request`
rebuilds the payload as `buildRequestData` instead. -/
def publicRequestData (slices : List Json) (cabin_class : String)
    (adult_count : Nat) (max_connections : Option Int) : Json :=
  .obj [("data", .obj (
    [("slices", .arr slices),
     ("cabin_class", .str cabin_class),
     ("passengers", passengersJson adult_count)] ++
    (match max_connections with
     | some n => [("max_connections", Json.num n)]
     | none => [])))]

/-- The query parameters dict (`duffel_api.py:106-109` and `167-170`):
`return_offers` lower-cased to a string, `supplier_timeout` as given. -/
def buildParams (return_offers : Bool) (supplier_timeout : Int) :
    List (String × Json) :=
  [("return_offers", .str (if return_offers then "true" else "false")),
   ("supplier_timeout", .num supplier_timeout)]

/-! ## Cache (`duffel_api.py:44`, `111-131`) -/

/-- One entry of `self._cache`: `{'response': ..., 'timestamp': ...}`
(`duffel_api.py:128-131`).  Timestamps are in whole seconds; the response
is whatever `_create_offer_request` returned. -/
structure CacheEntry where
  response : Option OfferRequestResult
  timestamp : Nat
deriving DecidableEq, Repr

/-- `self._cache`: a dict from cache-key strings to entries. -/
abbrev Cache := List (String × CacheEntry)

/-- The cache read (`duffel_api.py:113-119`): a hit requires the key to be
present and the entry's age `(datetime.now() - timestamp).total_seconds()`
to be strictly below 300 seconds; an expired entry falls through as a
miss (it is not deleted). -/
def cacheGet (cache : Cache) (key : String) (now : Nat) :
    Option (Option OfferRequestResult) :=
  match List.lookup key cache with
  | some e => if now - e.timestamp < 300 then some e.response else none
  | none => none

/-- The cache write `self._cache[cache_key] = {...}` (`duffel_api.py:128-131`):
dict assignment overwrites any previous entry for the key. -/
def cachePut (cache : Cache) (key : String) (e : CacheEntry) : Cache :=
  (key, e) :: cache.filter (fun p => p.1 != key)

/-! ## `Client.create_offer_request` (`duffel_api.py:83-138`) -/

/-- Observable outcome of one `create_offer_request` call: the returned
value or raised exception, the cache afterwards, the number of upstream
POST attempts issued, and the backoff sleeps performed. -/
structure CallOutcome where
  result : Except DuffelError (Option OfferRequestResult)
  cache : Cache
  posts : Nat
  sleeps : List Nat
deriving Repr

/-- `Client.create_offer_request` (`duffel_api.py:83-138`): compute the
cache key, return a fresh cached response if present, otherwise run
`_create_offer_request` (abstracted by the per-attempt `oracle`) and cache
its return value under the key with the current time.  Exceptions are
logged and re-raised unchanged (`duffel_api.py:135-138`), leaving the
cache untouched.  `max_connections` does not influence the key or the
cache logic; it is forwarded to the payload (`buildRequestData`). -/
def create_offer_request (cache : Cache) (now : Nat) (oracle : Nat → Outcome)
    (slices : List Json) (cabin_class : String) (adult_count : Nat)
    (max_connections : Option Int) : CallOutcome :=
  let key := cache_key slices cabin_class adult_count
  match cacheGet cache key now with
  | some resp => ⟨.ok resp, cache, 0, []⟩
  | none =>
    let a := createOfferRequestInner oracle
    match a.result with
    | .ok resp => ⟨.ok resp, cachePut cache key ⟨resp, now⟩, a.attempts, a.sleeps⟩
    | .error e => ⟨.error e, cache, a.attempts, a.sleeps⟩

/-! ## Tool layer (`src/flights/tools.py`) -/

/-- `TimeRange` (`tools.py:18-21`). -/
structure TimeRange where
  from_time : String
  to_time : String
deriving DecidableEq, Repr

/-- `FlightSearch` (`tools.py:23-34`), with exactly the fields the pydantic
model declares.  Optional fields default to `None`. -/
structure FlightSearch where
  type : String
  origin : String
  destination : String
  departure_date : String
  return_date : Option String
  departure_time : Option TimeRange
  arrival_time : Option TimeRange
  cabin_class : String
  adults : Nat
  max_connections : Option Int
deriving DecidableEq, Repr

/-- The attribute names `FlightSearch` defines (`tools.py:23-34`).
Reading any other attribute from an instance raises `AttributeError`. -/
def FlightSearch.fieldNames : List String :=
  ["type", "origin", "destination", "departure_date", "return_date",
   "departure_time", "arrival_time", "cabin_class", "adults", "max_connections"]

/-- The full-day time window dict (`tools.py:64-71`). -/
def fullDayWindow : Json :=
  .obj [("from", .str "00:00"), ("to", .str "23:59")]

/-- JSON encoding of a `TimeRange` (`tools.py:75-78`, `81-84`). -/
def timeRangeJson (t : TimeRange) : Json :=
  .obj [("from", .str t.from_time), ("to", .str t.to_time)]

/-- `_create_slice` (`tools.py:56-86`): build the slice dict with both
windows defaulted to the full day, then overwrite each window for which a
`TimeRange` was supplied (a pydantic model instance is always truthy, so
`if departure_time:` tests presence). -/
def create_slice (origin destination date : String)
    (departure_time arrival_time : Option TimeRange) : Json :=
  .obj [("origin", .str origin),
        ("destination", .str destination),
        ("departure_date", .str date),
        ("departure_time", (departure_time.map timeRangeJson).getD fullDayWindow),
        ("arrival_time", (arrival_time.map timeRangeJson).getD fullDayWindow)]

/-- Errors raised by the `search_flights` handler before or during the
upstream call; all propagate to the framework after logging
(`tools.py:215-217`). -/
inductive ToolError where
  | valueError (msg : String)
  | attributeError (attr : String)
  | noneResponse
  | upstream (e : DuffelError)
deriving DecidableEq, Repr

/-- The slice-building part of `search_flights` (`tools.py:92-155`).
`one_way` builds one slice; `round_trip` raises `ValueError` when
`params.return_date` is falsy (`None` or the empty string,
`tools.py:104-105`) and otherwise builds the outbound and inbound slices,
both passed the same `departure_time`/`arrival_time` preferences;
`multi_city` evaluates `params.additional_stops` (`tools.py:123`), an
attribute `FlightSearch` does not define — see `FlightSearch.fieldNames` —
so Python raises `AttributeError` there; any other `type` leaves `slices`
as the empty list. -/
def buildSlices (p : FlightSearch) : Except ToolError (List Json) :=
  if p.type = "one_way" then
    .ok [create_slice p.origin p.destination p.departure_date
           p.departure_time p.arrival_time]
  else if p.type = "round_trip" then
    match p.return_date with
    | none => .error (.valueError "Return date required for round-trip flights")
    | some r =>
      if r.isEmpty then
        .error (.valueError "Return date required for round-trip flights")
      else
        .ok [create_slice p.origin p.destination p.departure_date
               p.departure_time p.arrival_time,
             create_slice p.destination p.origin r
               p.departure_time p.arrival_time]
  else if p.type = "multi_city" then
    .error (.attributeError "additional_stops")
  else
    .ok []

/-! ## Response formatter (`tools.py:167-213`) -/

/-- One connection dict (`tools.py:201-206`). -/
structure Connection where
  airport : Option String
  arrival : Option String
  departure : Option String
  duration : Option String
deriving DecidableEq, Repr

/-- `slice_details` (`tools.py:188-196`). -/
structure SliceDetails where
  origin : String
  destination : String
  departure : Option String
  arrival : Option String
  duration : Option String
  carrier : Option String
  connections : List Connection
deriving DecidableEq, Repr

/-- Default segment used to totalize list indexing; the formatter only
indexes at positions the source guarantees are in range. -/
def dummySegment : Segment :=
  ⟨none, none, none, none, none⟩

/-- The per-slice body of the formatter (`tools.py:185-209`): a slice with
no segments is skipped (`if segments:`); otherwise departure, arrival and
carrier come from the first and last segments, and when there is more than
one segment, connection `i` (for `i` in `range(len(segments)-1)`) pairs
segment `i` with segment `i+1`. -/
def formatSliceDetails (s : OfferSlice) : Option SliceDetails :=
  match s.segments with
  | [] => none
  | first :: rest =>
    some {
      origin := s.origin.iata_code
      destination := s.destination.iata_code
      departure := first.departing_at
      arrival := ((first :: rest).getLast (List.cons_ne_nil first rest)).arriving_at
      duration := s.duration
      carrier := (first.marketing_carrier.getD ⟨none⟩).name
      connections :=
        if (first :: rest).length > 1 then
          (List.range ((first :: rest).length - 1)).map (fun i =>
            { airport := (((first :: rest).getD i dummySegment).destination.getD ⟨none⟩).iata_code
              arrival := ((first :: rest).getD i dummySegment).arriving_at
              departure := ((first :: rest).getD (i + 1) dummySegment).departing_at
              duration := ((first :: rest).getD (i + 1) dummySegment).duration })
        else [] }

/-- `offer_details` (`tools.py:175-209`): price fields plus the formatted
slices, empty-segment slices dropped. -/
structure OfferDetailsOut where
  offer_id : Option String
  amount : Option String
  currency : Option String
  slices : List SliceDetails
deriving DecidableEq, Repr

/-- Format one offer (`tools.py:174-211`). -/
def formatOffer (o : Offer) : OfferDetailsOut :=
  { offer_id := o.id
    amount := o.total_amount
    currency := o.total_currency
    slices := o.slices.filterMap formatSliceDetails }

/-- `formatted_response` (`tools.py:168-211`): the request id and the
first 50 offers (`[:50]`, `tools.py:174`), each formatted, in upstream
order. -/
structure FormattedResponse where
  request_id : String
  offers : List OfferDetailsOut
deriving DecidableEq, Repr

/-- Formatting of a successful `create_offer_request` return value in
`search_flights` (`tools.py:167-213`).  A Python `None` response would
fail at `response['request_id']`; modelled as `noneResponse`. -/
def formatResponse (resp : Option OfferRequestResult) :
    Except ToolError FormattedResponse :=
  match resp with
  | none => .error .noneResponse
  | some r => .ok ⟨r.request_id, (r.offers.take 50).map formatOffer⟩

/-- The `search_flights` tool handler (`tools.py:88-217`): build the
slices, call `create_offer_request` with the search parameters (and fixed
`return_offers=True`, `supplier_timeout=15000`), then format.  Errors are
logged and re-raised (`tools.py:215-217`).  Returns the result together
with the cache afterwards and the number of upstream POST attempts. -/
def search_flights (p : FlightSearch) (cache : Cache) (now : Nat)
    (oracle : Nat → Outcome) :
    Except ToolError FormattedResponse × Cache × Nat :=
  match buildSlices p with
  | .error e => (.error e, cache, 0)
  | .ok slices =>
    let c := create_offer_request cache now oracle slices p.cabin_class
      p.adults p.max_connections
    match c.result with
    | .error e => (.error (.upstream e), c.cache, c.posts)
    | .ok resp =>
      match formatResponse resp with
      | .error e => (.error e, c.cache, c.posts)
      | .ok f => (.ok f, c.cache, c.posts)

/-! ## Concrete data used by closed theorems and witnesses -/

/-- A one-way LHR→JFK slice with default time windows. -/
def demoSlices : List Json :=
  [create_slice "LHR" "JFK" "2025-06-01" none none]

/-- A successful upstream result used in concrete runs. -/
def demoResult : OfferRequestResult :=
  ⟨"orq_1", [⟨some "off_1", some "100.00", some "GBP", []⟩]⟩

/-- Transport that succeeds on every attempt. -/
def demoOracle : Nat → Outcome := fun _ => .success demoResult

/-- Transport that fails (connection error) on every attempt. -/
def demoOracleFail : Nat → Outcome := fun _ => .failure .connectError

/-- Transport that times out on every attempt. -/
def demoOracleTimeout : Nat → Outcome := fun _ => .readTimeout

/-! ## C1: retry policy -/

/-- C1: on a cache miss, a read timeout on the first attempt causes exactly
one retry (2 attempts total) with a single 1-second backoff, the call then
succeeding or failing according to the second attempt; any other failure
on the first attempt (non-2xx status, malformed body, connection error)
fails the call immediately with exactly 1 attempt and no backoff. -/
theorem retry_policy (cache : Cache) (now : Nat) (oracle : Nat → Outcome)
    (slices : List Json) (cabin_class : String) (adult_count : Nat)
    (max_connections : Option Int)
    (hmiss : cacheGet cache (cache_key slices cabin_class adult_count) now = none) :
    let c := create_offer_request cache now oracle slices cabin_class
      adult_count max_connections
    (oracle 0 = .readTimeout →
      c.posts = 2 ∧ c.sleeps = [1] ∧
      c.result = (match oracle 1 with
        | .success r => .ok (some r)
        | .readTimeout => .error .readTimeout
        | .failure e => .error (.other e))) ∧
    (∀ e, oracle 0 = .failure e →
      c.posts = 1 ∧ c.sleeps = [] ∧ c.result = .error (.other e)) := by
  simp only [create_offer_request, hmiss, createOfferRequestInner]
  constructor
  · intro h0
    cases h1 : oracle 1 <;> simp [attemptGo, h0, h1]
  · intro e h0
    simp [attemptGo, h0]

/-- C1 witness: with an empty cache and a transport that always times out,
the call makes 2 attempts, sleeps 1 second once, and fails with the
timeout. -/
theorem retry_policy_witness :
    cacheGet [] (cache_key demoSlices "economy" 1) 0 = none ∧
    (create_offer_request [] 0 demoOracleTimeout demoSlices "economy" 1 none).posts = 2 ∧
    (create_offer_request [] 0 demoOracleTimeout demoSlices "economy" 1 none).sleeps = [1] ∧
    (create_offer_request [] 0 demoOracleTimeout demoSlices "economy" 1 none).result =
      .error .readTimeout := by
  have h := retry_policy [] 0 demoOracleTimeout demoSlices "economy" 1 none rfl
  exact ⟨rfl, (h.1 rfl).1, (h.1 rfl).2.1, (h.1 rfl).2.2⟩

/-! ## C2: cache hit issues no second POST -/

/-- C2: a first `create_offer_request` call that misses the cache and
succeeds on its first attempt issues exactly one POST; a second call less
than 300 seconds later with the same slices, cabin class and adult count
returns the cached result, issues no POST at all (its transport oracle is
arbitrary and never consulted), and leaves the cache unchanged — so the
two calls together issue exactly one upstream POST. -/
theorem cache_hit_single_post (cache : Cache) (t0 d : Nat)
    (oracle1 oracle2 : Nat → Outcome) (slices : List Json)
    (cabin_class : String) (adult_count : Nat) (m1 m2 : Option Int)
    (r : OfferRequestResult)
    (hmiss : cacheGet cache (cache_key slices cabin_class adult_count) t0 = none)
    (hr : oracle1 0 = .success r) (hd : d < 300) :
    let c1 := create_offer_request cache t0 oracle1 slices cabin_class adult_count m1
    let c2 := create_offer_request c1.cache (t0 + d) oracle2 slices cabin_class adult_count m2
    c1.posts = 1 ∧ c1.result = .ok (some r) ∧
    c2.result = .ok (some r) ∧ c2.posts = 0 ∧ c2.cache = c1.cache ∧
    c1.posts + c2.posts = 1 := by
  simp only [create_offer_request, hmiss, createOfferRequestInner]
  simp [attemptGo, hr, cacheGet, cachePut, List.lookup, Nat.add_sub_cancel_left, hd]

/-- C2 witness: concrete two-call run 100 seconds apart, second transport
failing if it were ever consulted. -/
theorem cache_hit_single_post_witness :
    cacheGet [] (cache_key demoSlices "economy" 1) 1000 = none ∧
    demoOracle 0 = .success demoResult ∧ (100 : Nat) < 300 ∧
    ((create_offer_request [] 1000 demoOracle demoSlices "economy" 1 none).posts = 1 ∧
     (create_offer_request
        (create_offer_request [] 1000 demoOracle demoSlices "economy" 1 none).cache
        1100 demoOracleFail demoSlices "economy" 1 none).result = .ok (some demoResult) ∧
     (create_offer_request
        (create_offer_request [] 1000 demoOracle demoSlices "economy" 1 none).cache
        1100 demoOracleFail demoSlices "economy" 1 none).posts = 0) := by
  have h := cache_hit_single_post [] 1000 100 demoOracle demoOracleFail demoSlices
    "economy" 1 none none demoResult rfl rfl (by decide)
  exact ⟨rfl, rfl, by decide, h.1, h.2.2.1, h.2.2.2.1⟩

/-! ## C3: cache TTL -/

/-- C3: after a put at time `t`, a get of the same key at age 299 seconds
returns the stored response; a get at age 301 seconds returns absent, and
more generally a get at any age exceeding the 300-second TTL returns
absent — an expired entry is never returned as a hit. -/
theorem cache_ttl (cache : Cache) (key : String)
    (resp : Option OfferRequestResult) (t : Nat) :
    cacheGet (cachePut cache key ⟨resp, t⟩) key (t + 299) = some resp ∧
    cacheGet (cachePut cache key ⟨resp, t⟩) key (t + 301) = none ∧
    (∀ d, 300 < d → cacheGet (cachePut cache key ⟨resp, t⟩) key (t + d) = none) := by
  refine ⟨?_, ?_, fun d hd => ?_⟩ <;>
    simp [cacheGet, cachePut, List.lookup, Nat.add_sub_cancel_left] <;>
    omega

/-- C3 witness: concrete put/get at ages 299, 301 and 350 seconds. -/
theorem cache_ttl_witness :
    cacheGet (cachePut [] "k" ⟨some demoResult, 1000⟩) "k" 1299 = some (some demoResult) ∧
    cacheGet (cachePut [] "k" ⟨some demoResult, 1000⟩) "k" 1301 = none ∧
    (300 : Nat) < 350 ∧
    cacheGet (cachePut [] "k" ⟨some demoResult, 1000⟩) "k" 1350 = none := by
  have h := cache_ttl [] "k" (some demoResult) 1000
  exact ⟨h.1, h.2.1, by decide, h.2.2 350 (by decide)⟩

/-! ## C8: failures surface, carrying their cause -/

/-- C8: on a cache miss, every failing run of `create_offer_request`
surfaces the underlying cause to the caller and leaves the cache
untouched: an immediate non-timeout failure propagates as that failure; a
timeout followed by a non-timeout failure propagates as that failure; two
timeouts propagate as the timeout.  Conversely a successful return is
never fabricated: it always carries a result some attempt's transport
actually produced (an empty offers list inside such a result is a success,
not an error). -/
theorem failures_surface (cache : Cache) (now : Nat) (oracle : Nat → Outcome)
    (slices : List Json) (cabin_class : String) (adult_count : Nat)
    (max_connections : Option Int)
    (hmiss : cacheGet cache (cache_key slices cabin_class adult_count) now = none) :
    let c := create_offer_request cache now oracle slices cabin_class
      adult_count max_connections
    (∀ e, oracle 0 = .failure e → c.result = .error (.other e) ∧ c.cache = cache) ∧
    (∀ e, oracle 0 = .readTimeout → oracle 1 = .failure e →
      c.result = .error (.other e) ∧ c.cache = cache) ∧
    (oracle 0 = .readTimeout → oracle 1 = .readTimeout →
      c.result = .error .readTimeout ∧ c.cache = cache) ∧
    (∀ v, c.result = .ok v → ∃ k r, k < 2 ∧ oracle k = .success r ∧ v = some r) := by
  simp only [create_offer_request, hmiss, createOfferRequestInner]
  refine ⟨fun e h0 => ?_, fun e h0 h1 => ?_, fun h0 h1 => ?_, fun v hv => ?_⟩
  · simp [attemptGo, h0]
  · simp [attemptGo, h0, h1]
  · simp [attemptGo, h0, h1]
  · cases h0 : oracle 0 with
    | success r =>
      simp [attemptGo, h0] at hv
      exact ⟨0, r, by decide, h0, hv.symm⟩
    | readTimeout =>
      cases h1 : oracle 1 with
      | success r =>
        simp [attemptGo, h0, h1] at hv
        exact ⟨1, r, by decide, h1, hv.symm⟩
      | readTimeout => simp [attemptGo, h0, h1] at hv
      | failure e => simp [attemptGo, h0, h1] at hv
    | failure e => simp [attemptGo, h0] at hv

/-- C8 witness: a connection failure on the first attempt surfaces as that
failure and the cache is unchanged. -/
theorem failures_surface_witness :
    cacheGet [] (cache_key demoSlices "economy" 1) 0 = none ∧
    demoOracleFail 0 = .failure .connectError ∧
    (create_offer_request [] 0 demoOracleFail demoSlices "economy" 1 none).result =
      .error (.other .connectError) ∧
    (create_offer_request [] 0 demoOracleFail demoSlices "economy" 1 none).cache = [] := by
  have h := failures_surface [] 0 demoOracleFail demoSlices "economy" 1 none rfl
  exact ⟨rfl, rfl, (h.1 .connectError rfl).1, (h.1 .connectError rfl).2⟩

/-! ## C5: multi_city through search_flights always fails -/

/-- C5: for every `FlightSearch` whose `type` is `"multi_city"`, the
`search_flights` handler fails with the `AttributeError` from reading
`additional_stops` — an attribute `FlightSearch` does not declare — before
computing any cache key or issuing any upstream POST: the handler returns
the error with the cache unchanged and zero POST attempts, for every cache
state and transport. -/
theorem multi_city_search_always_fails (p : FlightSearch) (cache : Cache)
    (now : Nat) (oracle : Nat → Outcome) (ht : p.type = "multi_city") :
    buildSlices p = .error (.attributeError "additional_stops") ∧
    search_flights p cache now oracle =
      (.error (.attributeError "additional_stops"), cache, 0) ∧
    "additional_stops" ∉ FlightSearch.fieldNames := by
  have hb : buildSlices p = .error (.attributeError "additional_stops") := by
    simp [buildSlices, ht]
  exact ⟨hb, by simp [search_flights, hb], by decide⟩

/-- C5 witness: a concrete multi-city search request fails with the
attribute error, touching neither cache nor network. -/
theorem multi_city_search_always_fails_witness :
    (⟨"multi_city", "LHR", "JFK", "2025-06-01", none, none, none,
      "economy", 1, none⟩ : FlightSearch).type = "multi_city" ∧
    search_flights
      ⟨"multi_city", "LHR", "JFK", "2025-06-01", none, none, none, "economy", 1, none⟩
      [] 0 demoOracle =
      (.error (.attributeError "additional_stops"), [], 0) := by
  exact ⟨rfl, (multi_city_search_always_fails _ [] 0 demoOracle rfl).2.1⟩

/-! ## C9: round-trip slice building -/

/-- C9: for a round-trip search with a (non-empty) return date, slice
building yields exactly two slices — outbound origin→destination on the
departure date and inbound destination→origin on the return date, both
receiving the caller's time-window preferences; `_create_slice` defaults
any unset window to the full-day window 00:00–23:59; and a round-trip
search without a return date fails with the `ValueError` before any
network call — `search_flights` returns the error with the cache unchanged
and zero POST attempts. -/
theorem round_trip_slice_building (p : FlightSearch) (ht : p.type = "round_trip") :
    (∀ r, p.return_date = some r → r ≠ "" →
      buildSlices p = .ok [
        create_slice p.origin p.destination p.departure_date
          p.departure_time p.arrival_time,
        create_slice p.destination p.origin r
          p.departure_time p.arrival_time]) ∧
    (∀ o d dt, create_slice o d dt none none =
      .obj [("origin", .str o), ("destination", .str d),
            ("departure_date", .str dt),
            ("departure_time", fullDayWindow),
            ("arrival_time", fullDayWindow)]) ∧
    (p.return_date = none → ∀ cache now oracle,
      search_flights p cache now oracle =
        (.error (.valueError "Return date required for round-trip flights"),
         cache, 0)) := by
  refine ⟨fun r hr hne => ?_, fun o d dt => rfl, fun hnone cache now oracle => ?_⟩
  · have : r.isEmpty = false := by
      cases hemp : r.isEmpty
      · rfl
      · exact absurd ((String.isEmpty_iff r).mp hemp) hne
    simp [buildSlices, ht, hr, this]
  · have hb : buildSlices p =
        .error (.valueError "Return date required for round-trip flights") := by
      simp [buildSlices, ht, hnone]
    simp [search_flights, hb]

/-- C9 witness: the spec's example — LHR→JFK departing 2025-06-01 and
returning 2025-06-08 with no time preferences gives exactly the two slices
with full-day windows, and dropping the return date gives the error with
no POST. -/
theorem round_trip_slice_building_witness :
    buildSlices
      ⟨"round_trip", "LHR", "JFK", "2025-06-01", some "2025-06-08", none, none,
       "economy", 1, none⟩ =
      .ok [create_slice "LHR" "JFK" "2025-06-01" none none,
           create_slice "JFK" "LHR" "2025-06-08" none none] ∧
    create_slice "LHR" "JFK" "2025-06-01" none none =
      .obj [("origin", .str "LHR"), ("destination", .str "JFK"),
            ("departure_date", .str "2025-06-01"),
            ("departure_time", fullDayWindow),
            ("arrival_time", fullDayWindow)] ∧
    search_flights
      ⟨"round_trip", "LHR", "JFK", "2025-06-01", none, none, none, "economy", 1, none⟩
      [] 0 demoOracle =
      (.error (.valueError "Return date required for round-trip flights"), [], 0) := by
  have h1 := round_trip_slice_building
    ⟨"round_trip", "LHR", "JFK", "2025-06-01", some "2025-06-08", none, none,
     "economy", 1, none⟩ rfl
  have h2 := round_trip_slice_building
    ⟨"round_trip", "LHR", "JFK", "2025-06-01", none, none, none, "economy", 1, none⟩ rfl
  exact ⟨h1.1 "2025-06-08" rfl (by decide), h1.2.1 "LHR" "JFK" "2025-06-01",
         h2.2.2 rfl [] 0 demoOracle⟩

/-! ## C10: formatter segment derivation -/

/-- C10: for every offer slice whose segment list is `first :: rest`
(n ≥ 1 segments), the formatted slice's departure is the first segment's
`departing_at`, its arrival is the last segment's `arriving_at`, its
carrier is the first segment's marketing-carrier name, and it has exactly
`n - 1` connections, where connection `i` has airport = segment `i`'s
destination code, arrival = segment `i`'s `arriving_at`, departure =
segment `i+1`'s `departing_at` and duration = segment `i+1`'s stated
duration. -/
theorem formatter_segment_derivation (s : OfferSlice) (first : Segment)
    (rest : List Segment) (hs : s.segments = first :: rest) :
    ∃ d, formatSliceDetails s = some d ∧
      d.departure = first.departing_at ∧
      d.arrival = ((first :: rest).getLast (List.cons_ne_nil first rest)).arriving_at ∧
      d.carrier = (first.marketing_carrier.getD ⟨none⟩).name ∧
      d.connections.length = rest.length ∧
      ∀ i, i < rest.length →
        d.connections[i]? = some
          { airport := (((first :: rest).getD i dummySegment).destination.getD ⟨none⟩).iata_code
            arrival := ((first :: rest).getD i dummySegment).arriving_at
            departure := ((first :: rest).getD (i + 1) dummySegment).departing_at
            duration := ((first :: rest).getD (i + 1) dummySegment).duration } := by
  refine ⟨_, by rw [formatSliceDetails, hs], rfl, rfl, rfl, ?_, ?_⟩
  · by_cases hrest : rest = []
    · subst hrest; rfl
    · have hpos : 0 < rest.length := List.length_pos.mpr hrest
      have hcond : (first :: rest).length > 1 := by
        simp only [List.length_cons]; omega
      rw [if_pos hcond, List.length_map, List.length_range, List.length_cons,
          Nat.add_sub_cancel]
  · intro i hi
    have hcond : (first :: rest).length > 1 := by
      simp only [List.length_cons]; omega
    rw [if_pos hcond, List.length_cons, Nat.add_sub_cancel, List.getElem?_map,
        List.getElem?_range hi]
    rfl

/-- First segment of the spec's three-segment example (A→B). -/
def demoSeg1 : Segment :=
  ⟨some "2025-06-01T08:00", some "2025-06-01T10:00", some "PT2H",
   some ⟨some "BBB"⟩, some ⟨some "AirOne"⟩⟩

/-- Second segment of the spec's three-segment example (B→C). -/
def demoSeg2 : Segment :=
  ⟨some "2025-06-01T11:00", some "2025-06-01T13:00", some "PT2H",
   some ⟨some "CCC"⟩, some ⟨some "AirTwo"⟩⟩

/-- Third segment of the spec's three-segment example (C→D). -/
def demoSeg3 : Segment :=
  ⟨some "2025-06-01T14:00", some "2025-06-01T16:00", some "PT2H",
   some ⟨some "DDD"⟩, some ⟨some "AirThree"⟩⟩

/-- The spec's example offer slice with three segments A→B, B→C, C→D. -/
def demo3Slice : OfferSlice :=
  ⟨⟨"AAA"⟩, ⟨"DDD"⟩, some "PT8H", [demoSeg1, demoSeg2, demoSeg3]⟩

/-- C10 witness: the three-segment example slice formats with departure
from segment 1, arrival from segment 3, carrier from segment 1, and
exactly two connections at airports B and C. -/
theorem formatter_segment_derivation_witness :
    ∃ d, formatSliceDetails demo3Slice = some d ∧
      d.departure = some "2025-06-01T08:00" ∧
      d.arrival = some "2025-06-01T16:00" ∧
      d.carrier = some "AirOne" ∧
      d.connections.length = 2 ∧
      d.connections[0]?.map (fun c => c.airport) = some (some "BBB") ∧
      d.connections[1]?.map (fun c => c.airport) = some (some "CCC") := by
  obtain ⟨d, hd, hdep, harr, hcar, hlen, hconn⟩ :=
    formatter_segment_derivation demo3Slice demoSeg1 [demoSeg2, demoSeg3] rfl
  refine ⟨d, hd, hdep, harr, hcar, hlen, ?_, ?_⟩
  · rw [hconn 0 (by decide)]; rfl
  · rw [hconn 1 (by decide)]; rfl

/-! ## C6: max_connections in the outbound payload -/

/-- Look up a field of a JSON object. -/
def fieldLookup (j : Json) (k : String) : Option Json :=
  match j with
  | .obj fs => List.lookup k fs
  | _ => none

/-- Look up a field of the `data` sub-object of a request payload. -/
def dataField (j : Json) (k : String) : Option Json :=
  match fieldLookup j "data" with
  | some d => fieldLookup d k
  | none => none

/-- C6: the payload actually POSTed (`request_data` in
`_create_offer_request`, `duffel_api.py:157-164`, sent at line 178)
contains a `max_connections` field even when the caller supplied none —
its value is then `null` — contradicting the claim that the field is
included only if explicitly supplied; the unused `data` dict that the
public `create_offer_request` builds (`duffel_api.py:93-103`) does omit
the field, matching the claim.  The rest of the claim holds of the sent
payload: supplied `max_connections` is forwarded, passengers are
`adult_count` repetitions of `{type: "adult"}`, slices and cabin class are
included, and the query parameters are `return_offers=true` with the
caller-supplied `supplier_timeout`. -/
theorem max_connections_always_in_payload :
    dataField (buildRequestData demoSlices "economy" 1 none) "max_connections" =
      some Json.null ∧
    dataField (publicRequestData demoSlices "economy" 1 none) "max_connections" =
      none ∧
    dataField (buildRequestData demoSlices "economy" 1 (some 2)) "max_connections" =
      some (Json.num 2) ∧
    dataField (buildRequestData demoSlices "economy" 2 none) "passengers" =
      some (.arr [.obj [("type", .str "adult")], .obj [("type", .str "adult")]]) ∧
    dataField (buildRequestData demoSlices "economy" 1 none) "slices" =
      some (.arr demoSlices) ∧
    dataField (buildRequestData demoSlices "economy" 1 none) "cabin_class" =
      some (.str "economy") ∧
    buildParams true 15000 =
      [("return_offers", .str "true"), ("supplier_timeout", .num 15000)] :=
  ⟨rfl, rfl, rfl, rfl, rfl, rfl, rfl⟩

/-! ## C7: the cache key ignores what the payload varies by -/

/-- C7: two calls that differ only in `max_connections` construct
different outbound payloads, yet `_cache_key` — computed from slices,
cabin class and adult count only — gives them the same key: a concrete run
in which the first call (max_connections = 0) POSTs once and the second
call (max_connections = 2, 100 seconds later, a transport that would fail
if consulted) is served the first call's cached result with zero POSTs,
even though its outbound payload would have been different.  This refutes
the claim that calls with different payloads always get different keys. -/
theorem cached_result_served_for_different_payload :
    buildRequestData demoSlices "economy" 1 (some 0) ≠
      buildRequestData demoSlices "economy" 1 (some 2) ∧
    (create_offer_request [] 1000 demoOracle demoSlices "economy" 1 (some 0)).posts = 1 ∧
    (create_offer_request
        (create_offer_request [] 1000 demoOracle demoSlices "economy" 1 (some 0)).cache
        1100 demoOracleFail demoSlices "economy" 1 (some 2)).result =
      .ok (some demoResult) ∧
    (create_offer_request
        (create_offer_request [] 1000 demoOracle demoSlices "economy" 1 (some 0)).cache
        1100 demoOracleFail demoSlices "economy" 1 (some 2)).posts = 0 := by
  refine ⟨?_, ?_, ?_, ?_⟩
  · intro h
    have h0 : dataField (buildRequestData demoSlices "economy" 1 (some 0))
        "max_connections" = some (Json.num 0) := rfl
    have h2 : dataField (buildRequestData demoSlices "economy" 1 (some 2))
        "max_connections" = some (Json.num 2) := rfl
    rw [h, h2] at h0
    simp at h0
  · rfl
  · simp only [create_offer_request, createOfferRequestInner, attemptGo, demoOracle,
      demoOracleFail, cacheGet, cachePut, List.lookup, List.filter]
    simp
  · simp only [create_offer_request, createOfferRequestInner, attemptGo, demoOracle,
      demoOracleFail, cacheGet, cachePut, List.lookup, List.filter]
    simp

/-! ## C4: the cache key is independent of field-insertion order -/

instance : IsTotal (String × Json) (fun a b => a.1 ≤ b.1) :=
  ⟨fun a b => le_total a.1 b.1⟩

instance : IsTrans (String × Json) (fun a b => a.1 ≤ b.1) :=
  ⟨fun _ _ _ h1 h2 => le_trans h1 h2⟩

instance : IsAntisymm (String × Json) (fun a b => a.1 < b.1) :=
  ⟨fun _ _ h1 h2 => absurd (lt_trans h1 h2) (lt_irrefl _)⟩

/-- Unfolding of `canonFields` as a map over the field list. -/
theorem canonFields_eq_map (l : List (String × Json)) :
    canonFields l = l.map (fun p => (p.1, canon p.2)) := by
  induction l with
  | nil => simp [canonFields]
  | cons p rest ih => cases p; simp [canonFields, ih]

/-- Sorting by key sends key-nodup permutations of a field list to the
same list: the sorted order of a dict's items is determined by its
key-value mapping alone. -/
theorem sortFields_perm_eq {l1 l2 : List (String × Json)}
    (hp : l1.Perm l2) (hn : (l1.map Prod.fst).Nodup) :
    sortFields l1 = sortFields l2 := by
  have hperm : (sortFields l1).Perm (sortFields l2) :=
    (List.perm_insertionSort _ l1).trans
      (hp.trans (List.perm_insertionSort _ l2).symm)
  have keyNodup : ∀ l : List (String × Json), (l.map Prod.fst).Nodup →
      (sortFields l).Pairwise (fun a b => a.1 ≠ b.1) := by
    intro l hl
    have : ((sortFields l).map Prod.fst).Nodup :=
      (((List.perm_insertionSort _ l).map Prod.fst).nodup_iff).mpr hl
    exact List.pairwise_map.mp this
  have hn2 : (l2.map Prod.fst).Nodup := ((hp.map Prod.fst).nodup_iff).mp hn
  have strict : ∀ l : List (String × Json), (l.map Prod.fst).Nodup →
      (sortFields l).Pairwise (fun a b : String × Json => a.1 < b.1) := by
    intro l hl
    have hle := List.sorted_insertionSort (fun a b : String × Json => a.1 ≤ b.1) l
    exact (hle.and (keyNodup l hl)).imp (fun h => lt_of_le_of_ne h.1 h.2)
  exact List.eq_of_perm_of_sorted (r := fun a b : String × Json => a.1 < b.1)
    hperm (strict l1 hn) (strict l2 hn2)

/-- Canonicalization is invariant under permuting a dict's fields (with
the distinct keys every Python dict has). -/
theorem canon_obj_perm {f1 f2 : List (String × Json)}
    (hp : f1.Perm f2) (hn : (f1.map Prod.fst).Nodup) :
    canon (.obj f1) = canon (.obj f2) := by
  simp only [canon, canonFields_eq_map]
  congr 1
  apply sortFields_perm_eq (hp.map _)
  have : (f1.map (fun p => (p.1, canon p.2))).map Prod.fst = f1.map Prod.fst := by
    rw [List.map_map]
    rfl
  rw [this]
  exact hn

/-- C4: two slice lists whose legs are pairwise equal as dicts — same
key-value pairs, possibly in different insertion order, with the distinct
keys every dict has — produce equal cache keys for the same cabin class
and adult count: `json.dumps(..., sort_keys=True)` canonicalizes before
the digest, so the key is independent of field ordering. -/
theorem cache_key_field_order_independent
    (legs1 legs2 : List (List (String × Json)))
    (cabin_class : String) (adult_count : Nat)
    (h : List.Forall₂ (fun f1 f2 => f1.Perm f2 ∧ (f1.map Prod.fst).Nodup)
      legs1 legs2) :
    cache_key (legs1.map Json.obj) cabin_class adult_count =
      cache_key (legs2.map Json.obj) cabin_class adult_count := by
  have hlist : canonList (legs1.map Json.obj) = canonList (legs2.map Json.obj) := by
    induction h with
    | nil => rfl
    | cons hpair _ ih =>
      simp only [List.map_cons, canonList]
      rw [canon_obj_perm hpair.1 hpair.2, ih]
  simp only [cache_key, pyDumpsSorted]
  congr 1
  simp only [canon, canonFields]
  rw [hlist]

/-- A leg dict in one insertion order. -/
def demoLegA : List (String × Json) :=
  [("origin", .str "LHR"), ("destination", .str "JFK"),
   ("departure_date", .str "2025-06-01")]

/-- The same leg dict with its first two fields in the other order. -/
def demoLegB : List (String × Json) :=
  [("destination", .str "JFK"), ("origin", .str "LHR"),
   ("departure_date", .str "2025-06-01")]

/-- C4 witness: the two insertion orders of the same leg yield equal cache
keys. -/
theorem cache_key_field_order_independent_witness :
    (demoLegA.Perm demoLegB ∧ (demoLegA.map Prod.fst).Nodup) ∧
    cache_key [Json.obj demoLegA] "economy" 1 =
      cache_key [Json.obj demoLegB] "economy" 1 := by
  have hperm : demoLegA.Perm demoLegB := List.Perm.swap _ _ _
  have hnd : (demoLegA.map Prod.fst).Nodup := by
    simp only [demoLegA, List.map_cons, List.map_nil]
    decide
  exact ⟨⟨hperm, hnd⟩,
    cache_key_field_order_independent [demoLegA] [demoLegB] "economy" 1
      (List.Forall₂.cons ⟨hperm, hnd⟩ List.Forall₂.nil)⟩

end Flights
